import Mathlib

/-!
# devreset: reset a USB device by vendor / product id

A shallow embedding of `src/devreset.c`.  The program is a straight line of
calls into IOKit, so the embedding is a function from the answers of the
platform to the list of calls the program makes (in program order) and the exit code.

* every platform call is an event of type `Call`, carrying the arguments the
  program passes and the answer the platform gives;
* the answers of the platform are the fields of `Device` (one record per
  device the iterator yields) and `Platform` (start-up calls);
* `ConfigureDevice`, `DeviceConnected` and `main` follow the C functions of
  the same names statement by statement.
-/

namespace DevReset

/-! ## Constants -/

/-- Retry cap of the exclusive-open loop: `#define kExcAccMaxWait 5`. -/
def kExcAccMaxWait : Nat := 5

/-- IOKit `kIOReturnSuccess` (`IOReturn.h`: `KERN_SUCCESS`, 0). -/
def kIOReturnSuccess : Int := 0

/-- IOKit `kIOReturnError` (`IOReturn.h`: `iokit_common_err(0x2bc)`, that is
`0xe00002bc` read as a 32-bit signed `kern_return_t`:
`0xe00002bc - 2^32`). -/
def kIOReturnError : Int := -536870212

/-- IOKit `kIOReturnNoDevice` (`IOReturn.h`: `iokit_common_err(0x2c0)`,
`0xe00002c0 - 2^32`). -/
def kIOReturnNoDevice : Int := -536870208

/-- IOKit `kIOReturnExclusiveAccess` (`IOReturn.h`:
`iokit_common_err(0x2c5)`, `0xe00002c5 - 2^32`): the device is already open
for exclusive access. -/
def kIOReturnExclusiveAccess : Int := -536870203

/-- Conversion of a C `long` to `SInt32` (`productID = strtol (...)`): the
value is reduced modulo `2^32` into the range `-2^31 .. 2^31 - 1`. -/
def toSInt32 (x : Int) : Int := (x + 2 ^ 31) % 2 ^ 32 - 2 ^ 31

/-! ## Events -/

/-- The two output streams the program writes to. -/
inductive Stream
  | stdout
  | stderr
  deriving DecidableEq, Repr

/-- The lines the program prints, one constructor per format string, with the
values that are formatted into it. -/
inductive Msg
  /-- Line 20: `usage: %s productID vendorID`, with `argv[0]`. -/
  | usage (prog : Option String)
  /-- Line 29: `Invalid productID or vendorID`. -/
  | invalidIds
  /-- Line 33: `Looking for productID=0x%04x vendorID=0x%04x`. -/
  | lookingFor (productID vendorID : Int)
  /-- Line 41: `could not create matching dictionary for device ...`. -/
  | noMatchingDictionary (vendorID productID : Int)
  /-- Line 49: `IOServiceAddMatchingNotification`. -/
  | addMatchingNotification
  /-- Line 85: `could not create plug-in interface: %08x`. -/
  | couldNotCreatePlugIn (kerr : Int)
  /-- Line 93: `could not get device interface: %08x`. -/
  | couldNotGetInterface (result : Int)
  /-- Line 101: `Found device vendor=0x%04X, product=0x%04X, version=0x%04X`. -/
  | foundDevice (vendor product version : Nat)
  /-- Line 108: `waiting for access (%d)`, with `kExcAccMaxWait-u`. -/
  | waitingForAccess (remaining : Int)
  /-- Line 115: `could not open device: %08x`. -/
  | couldNotOpen (kerr : Int)
  /-- Line 122: `could not configure device`. -/
  | couldNotConfigure
  /-- Line 131: `USBDeviceReEnumerate: error %d`. -/
  | reEnumerateError (kerr : Int)
  deriving DecidableEq, Repr

/-- The kernel objects `IOObjectRelease` can be applied to. -/
inductive KernelObject
  /-- The `io_service_t` that `IOIteratorNext` returned. -/
  | device
  /-- The iterator `gDevIter`. -/
  | iterator
  deriving DecidableEq, Repr

/-- One call into libc or the platform, with the arguments the program passes
and (where the program receives one) the answer.  Calls of the USB device
interface (`GetDeviceVendor` .. `Release`) are the calls `(*dev)->f (dev, ...)`
on the device interface of the device being processed. -/
inductive Call
  | strtol (s : String) (ret : Int)
  | fprintf (stream : Stream) (msg : Msg)
  | IOMasterPort (kerr : Int) (port : Nat)
  | IOServiceMatching (dict : Nat)
  | CFNumberCreate (value : Int)
  | CFDictionarySetValue (key : String)
  | IONotificationPortCreate (port : Nat)
  /-- Part of the platform interface; the program never calls it. -/
  | IONotificationPortDestroy
  | IOServiceAddMatchingNotification (kerr : Int)
  | mach_port_deallocate (port : Nat)
  | IOIteratorNext (found : Bool)
  | IOCreatePlugInInterfaceForService (kerr : Int)
  | IOObjectRelease (obj : KernelObject)
  | QueryInterface (result : Int) (dev : Nat)
  | IODestroyPlugInInterface
  | GetDeviceVendor
  | GetDeviceProduct
  | GetDeviceReleaseNumber
  | USBDeviceOpen (kerr : Int)
  | sleep (seconds : Nat)
  | GetNumberOfConfigurations (ret : Int) (nConf : Nat)
  | GetConfigurationDescriptorPtr (index : Nat) (ret : Int)
  | SetConfiguration (value : Nat) (ret : Int)
  | USBDeviceReEnumerate (options : Nat) (kerr : Int)
  | USBDeviceClose
  | Release
  deriving DecidableEq, Repr

/-! ## Platform answers -/

/-- The answers the platform gives while one matched device is processed.
For a call with an out-parameter the record holds the value found in the
variable after the call.  `QueryInterface` stores a pointer through its
out-parameter on every call (the interface on success, `NULL` otherwise), so
`qiDev` is the pointer it stores in `dev`, 0 for `NULL`. -/
structure Device where
  /-- Result of `IOCreatePlugInInterfaceForService`. -/
  plugInKerr : Int
  /-- Result of `QueryInterface`. -/
  qiResult : Int
  /-- Value of `dev` after `QueryInterface` (0 is `NULL`). -/
  qiDev : Nat
  /-- Value of `vendor` after `GetDeviceVendor`. -/
  vendor : Nat
  /-- Value of `product` after `GetDeviceProduct`. -/
  product : Nat
  /-- Value of `version` after `GetDeviceReleaseNumber`. -/
  version : Nat
  /-- Result of the `n`-th call (from 0) of `USBDeviceOpen` on this device. -/
  usbDeviceOpen : Nat → Int
  /-- Result of `GetNumberOfConfigurations`. -/
  nConfRet : Int
  /-- Value of the `UInt8 nConf` after `GetNumberOfConfigurations`: what the
  call stored, or the indeterminate initial value when it stored nothing. -/
  nConf : Nat
  /-- Result of `GetConfigurationDescriptorPtr (dev, 0, &confDescPtr)`. -/
  confDescRet : Int
  /-- Field `bConfigurationValue` of the descriptor at index 0. -/
  bConfigurationValue : Nat
  /-- Result of `SetConfiguration`. -/
  setConfRet : Int
  /-- Result of `USBDeviceReEnumerate`. -/
  reEnumKerr : Int

/-- The answers of the platform to the calls of `main`, and the devices the
iterator `gDevIter` yields. -/
structure Platform where
  /-- Result of `IOMasterPort`. -/
  masterPortKerr : Int
  /-- Value of `gMachPort` after `IOMasterPort` (0 is `MACH_PORT_NULL`). -/
  machPort : Nat
  /-- Pointer returned by `IOServiceMatching` (0 is `NULL`). -/
  dict : Nat
  /-- Pointer returned by `IONotificationPortCreate`. -/
  notificationPort : Nat
  /-- Result of `IOServiceAddMatchingNotification`. -/
  addNotificationKerr : Int
  /-- The devices `IOIteratorNext (gDevIter)` returns, in order; after the
  last one it returns 0. -/
  iterator : List Device

/-! ## The program -/

/-- `ConfigureDevice` (lines 58-69): the `IOReturn` it returns and the calls
it makes.  The result of `GetNumberOfConfigurations` is not looked at; only
the value of `nConf` is. -/
def ConfigureDevice (d : Device) : Int × List Call :=
  let t1 := [Call.GetNumberOfConfigurations d.nConfRet d.nConf]
  if d.nConf = 0 then (kIOReturnError, t1)
  else
    let t2 := t1 ++ [Call.GetConfigurationDescriptorPtr 0 d.confDescRet]
    if d.confDescRet ≠ 0 then (kIOReturnError, t2)
    else
      let t3 := t2 ++ [Call.SetConfiguration d.bConfigurationValue d.setConfRet]
      if d.setConfRet ≠ 0 then (kIOReturnError, t3)
      else (kIOReturnSuccess, t3)

/-- The `do { ... } while` loop of lines 105-112, entered with the counter at
`u` when `n` calls of `USBDeviceOpen` have been made: the final `kerr` and the
calls made. -/
def openLoop (usbDeviceOpen : Nat → Int) (u n : Nat) : Int × List Call :=
  let kerr := usbDeviceOpen n
  if kerr = kIOReturnExclusiveAccess then
    let body := [Call.USBDeviceOpen kerr,
      Call.fprintf Stream.stdout (Msg.waitingForAccess ((kExcAccMaxWait : Int) - (u : Int))),
      Call.sleep 1]
    if u + 1 < kExcAccMaxWait then
      let r := openLoop usbDeviceOpen (u + 1) (n + 1)
      (r.1, body ++ r.2)
    else (kerr, body)
  else (kerr, [Call.USBDeviceOpen kerr])
termination_by kExcAccMaxWait - u
decreasing_by omega

/-- One pass through the body of the `while` loop of `DeviceConnected` (lines
81-136) for the device `d`, starting from the calls `tr` made so far.  Each
`continue` is an early result.  The locals of `DeviceConnected` (`kerr`,
`iodev`, `dev`, `vendor`, `product`, `version`, `result`, `u`) are each set in
a pass, by assignment or through an out-parameter, before the pass reads them;
`Device` records the values they hold after the call that sets them. -/
def loopBody (d : Device) (tr : List Call) : List Call :=
  -- get device plugin
  let tr := tr ++ [Call.IOCreatePlugInInterfaceForService d.plugInKerr,
    Call.IOObjectRelease KernelObject.device]
  if d.plugInKerr ≠ kIOReturnSuccess then
    tr ++ [Call.fprintf Stream.stderr (Msg.couldNotCreatePlugIn d.plugInKerr)]
  else
  -- get device interface
  let tr := tr ++ [Call.QueryInterface d.qiResult d.qiDev, Call.IODestroyPlugInInterface]
  if d.qiResult ≠ 0 ∨ d.qiDev = 0 then
    tr ++ [Call.fprintf Stream.stderr (Msg.couldNotGetInterface d.qiResult)]
  else
  -- get device data
  let tr := tr ++ [Call.GetDeviceVendor, Call.GetDeviceProduct, Call.GetDeviceReleaseNumber,
    Call.fprintf Stream.stdout (Msg.foundDevice d.vendor d.product d.version)]
  -- open device
  let opened := openLoop d.usbDeviceOpen 0 0
  let kerr := opened.1
  let tr := tr ++ opened.2
  if kerr ≠ kIOReturnSuccess then
    tr ++ [Call.fprintf Stream.stderr (Msg.couldNotOpen kerr), Call.Release]
  else
  -- configure device
  let conf := ConfigureDevice d
  let tr := tr ++ conf.2
  if conf.1 ≠ kIOReturnSuccess then
    tr ++ [Call.fprintf Stream.stderr Msg.couldNotConfigure, Call.USBDeviceClose, Call.Release]
  else
  -- reenumerate to device
  let tr := tr ++ [Call.USBDeviceReEnumerate 0 d.reEnumKerr]
  let tr := if d.reEnumKerr ≠ kIOReturnSuccess then
      tr ++ [Call.fprintf Stream.stdout (Msg.reEnumerateError d.reEnumKerr)]
    else tr
  -- close device
  tr ++ [Call.USBDeviceClose, Call.Release]

/-- `DeviceConnected` (lines 71-138): the `while` loop over the iterator,
whose remaining devices are the first argument; `tr` is the list of calls
made so far and the result the list of calls made when the function returns. -/
def DeviceConnected : List Device → List Call → List Call
  | [], tr => tr ++ [Call.IOIteratorNext false]
  | d :: rest, tr => DeviceConnected rest (loopBody d (tr ++ [Call.IOIteratorNext true]))

/-- `main` (lines 17-56): the exit code of the process and the calls made.
`strtol` is the libc function, called as `strtol (s, NULL, 0)`; `argc` is the length of `argv`. -/
def main (strtol : String → Int) (pf : Platform) (argv : List String) : Int × List Call :=
  if argv.length < 3 then
    (1, [Call.fprintf Stream.stderr (Msg.usage argv.head?)])
  else
  let arg1 := argv.getD 1 ""
  let arg2 := argv.getD 2 ""
  let productID := toSInt32 (strtol arg1)
  let vendorID := toSInt32 (strtol arg2)
  let tr := [Call.strtol arg1 (strtol arg1), Call.strtol arg2 (strtol arg2)]
  if productID ≤ 0 ∨ productID > 0xffff ∨ vendorID ≤ 0 ∨ vendorID > 0xffff then
    (1, tr ++ [Call.fprintf Stream.stderr Msg.invalidIds])
  else
  let tr := tr ++ [Call.fprintf Stream.stdout (Msg.lookingFor productID vendorID),
    Call.IOMasterPort pf.masterPortKerr pf.machPort]
  if pf.masterPortKerr ≠ 0 ∨ pf.machPort = 0 then (1, tr)
  else
  let tr := tr ++ [Call.IOServiceMatching pf.dict]
  if pf.dict = 0 then
    (1, tr ++ [Call.fprintf Stream.stderr (Msg.noMatchingDictionary vendorID productID)])
  else
  let tr := tr ++ [Call.CFNumberCreate vendorID, Call.CFDictionarySetValue "idVendor",
    Call.CFNumberCreate productID, Call.CFDictionarySetValue "idProduct",
    Call.IONotificationPortCreate pf.notificationPort,
    Call.IOServiceAddMatchingNotification pf.addNotificationKerr]
  if pf.addNotificationKerr ≠ kIOReturnSuccess then
    (1, tr ++ [Call.fprintf Stream.stderr Msg.addMatchingNotification])
  else
  let tr := DeviceConnected pf.iterator tr
  (0, tr ++ [Call.mach_port_deallocate pf.machPort])

/-! ## Vocabulary of the properties -/

/-- An attempt to open the device: a call of `USBDeviceOpen`. -/
def Call.isOpen : Call → Bool
  | .USBDeviceOpen _ => true
  | _ => false

/-- A call of `sleep`. -/
def Call.isSleep : Call → Bool
  | .sleep _ => true
  | _ => false

/-- A call of the configure step: `GetNumberOfConfigurations`,
`GetConfigurationDescriptorPtr` or `SetConfiguration`. -/
def Call.isConfigure : Call → Bool
  | .GetNumberOfConfigurations _ _ => true
  | .GetConfigurationDescriptorPtr _ _ => true
  | .SetConfiguration _ _ => true
  | _ => false

/-- A call of `USBDeviceReEnumerate`. -/
def Call.isReEnumerate : Call → Bool
  | .USBDeviceReEnumerate _ _ => true
  | _ => false

/-- A call of `USBDeviceClose`. -/
def Call.isClose : Call → Bool
  | .USBDeviceClose => true
  | _ => false

/-- A call of `Release` on the device interface. -/
def Call.isRelease : Call → Bool
  | .Release => true
  | _ => false

/-- A call of `IOIteratorNext` that yields a device: the start of one pass
through the loop of `DeviceConnected`. -/
def Call.isNextDevice : Call → Bool
  | .IOIteratorNext true => true
  | _ => false

/-- The calls on the device interface that change the state of the device or
of the session: open, set configuration, re-enumerate, close, release. -/
def Call.changesDevice : Call → Bool
  | .USBDeviceOpen _ => true
  | .SetConfiguration _ _ => true
  | .USBDeviceReEnumerate _ _ => true
  | .USBDeviceClose => true
  | .Release => true
  | _ => false

/-- A call `main` makes before it enters `DeviceConnected`. -/
def Call.isStartup : Call → Bool
  | .strtol _ _ => true
  | .fprintf _ _ => true
  | .IOMasterPort _ _ => true
  | .IOServiceMatching _ => true
  | .CFNumberCreate _ => true
  | .CFDictionarySetValue _ => true
  | .IONotificationPortCreate _ => true
  | .IOServiceAddMatchingNotification _ => true
  | _ => false

/-- At least three entries in `argv`, and both `strtol` results are in the
range `1 .. 0xFFFF`. -/
def validIds (strtol : String → Int) (argv : List String) : Prop :=
  3 ≤ argv.length ∧
  (1 ≤ strtol (argv.getD 1 "") ∧ strtol (argv.getD 1 "") ≤ 0xffff) ∧
  (1 ≤ strtol (argv.getD 2 "") ∧ strtol (argv.getD 2 "") ≤ 0xffff)

/-- The start-up calls of `main` all succeed: `IOMasterPort` returns 0 and a
port, `IOServiceMatching` a dictionary, `IOServiceAddMatchingNotification`
`kIOReturnSuccess`. -/
def Platform.initOk (pf : Platform) : Prop :=
  pf.masterPortKerr = 0 ∧ pf.machPort ≠ 0 ∧ pf.dict ≠ 0 ∧
  pf.addNotificationKerr = kIOReturnSuccess

/-- Interface resolution succeeds for the device: the plug-in is created and
`QueryInterface` returns 0 and a device interface. -/
def Device.resolves (d : Device) : Prop :=
  d.plugInKerr = kIOReturnSuccess ∧ d.qiResult = 0 ∧ d.qiDev ≠ 0

/-- Every call of the configure step succeeds and the device reports at least
one configuration. -/
def Device.configures (d : Device) : Prop :=
  d.nConfRet = kIOReturnSuccess ∧ 1 ≤ d.nConf ∧ d.confDescRet = kIOReturnSuccess ∧
  d.setConfRet = kIOReturnSuccess

/-- The calls of `main` before `DeviceConnected` when the identifiers are
valid and start-up succeeds. -/
def startupCalls (strtol : String → Int) (pf : Platform) (argv : List String) : List Call :=
  [Call.strtol (argv.getD 1 "") (strtol (argv.getD 1 "")),
   Call.strtol (argv.getD 2 "") (strtol (argv.getD 2 "")),
   Call.fprintf Stream.stdout
     (Msg.lookingFor (strtol (argv.getD 1 "")) (strtol (argv.getD 2 ""))),
   Call.IOMasterPort pf.masterPortKerr pf.machPort,
   Call.IOServiceMatching pf.dict,
   Call.CFNumberCreate (strtol (argv.getD 2 "")),
   Call.CFDictionarySetValue "idVendor",
   Call.CFNumberCreate (strtol (argv.getD 1 "")),
   Call.CFDictionarySetValue "idProduct",
   Call.IONotificationPortCreate pf.notificationPort,
   Call.IOServiceAddMatchingNotification pf.addNotificationKerr]

/-- The calls of the loop body up to the line `Found device ...` when
interface resolution succeeds. -/
def resolveCalls (d : Device) : List Call :=
  [Call.IOCreatePlugInInterfaceForService d.plugInKerr,
   Call.IOObjectRelease KernelObject.device,
   Call.QueryInterface d.qiResult d.qiDev,
   Call.IODestroyPlugInInterface,
   Call.GetDeviceVendor, Call.GetDeviceProduct, Call.GetDeviceReleaseNumber,
   Call.fprintf Stream.stdout (Msg.foundDevice d.vendor d.product d.version)]

/-- The calls of `k` rounds of the open loop that each find the device busy,
the first of them with the counter at `u`. -/
def busyRounds (u : Nat) : Nat → List Call
  | 0 => []
  | k + 1 =>
    [Call.USBDeviceOpen kIOReturnExclusiveAccess,
     Call.fprintf Stream.stdout (Msg.waitingForAccess ((kExcAccMaxWait : Int) - (u : Int))),
     Call.sleep 1] ++ busyRounds (u + 1) k

/-- The resources the program acquires from the platform. -/
inductive Resource
  /-- The mach port `gMachPort`, from `IOMasterPort`. -/
  | machPort
  /-- The notification port `gNotificationPort`. -/
  | notificationPort
  /-- The device iterator `gDevIter`. -/
  | iterator
  /-- The `io_service_t` of a matched device, from `IOIteratorNext`. -/
  | service
  /-- The plug-in interface `iodev` of a matched device. -/
  | plugIn
  /-- The device interface `dev` of a matched device, from `QueryInterface`. -/
  | deviceInterface
  /-- The open session on a matched device, from `USBDeviceOpen`. -/
  | session
  deriving DecidableEq, Repr

/-- The resources that belong to one matched device. -/
def Resource.perDevice : Resource → Bool
  | .service => true
  | .plugIn => true
  | .deviceInterface => true
  | .session => true
  | _ => false

/-- The call hands the program a resource of kind `r`: it is the acquiring
call of `r` and its answer reports success. -/
def acquires : Resource → Call → Bool
  | .machPort, .IOMasterPort kerr port => decide (kerr = 0) && decide (port ≠ 0)
  | .notificationPort, .IONotificationPortCreate port => decide (port ≠ 0)
  | .iterator, .IOServiceAddMatchingNotification kerr => decide (kerr = kIOReturnSuccess)
  | .service, .IOIteratorNext found => found
  | .plugIn, .IOCreatePlugInInterfaceForService kerr => decide (kerr = kIOReturnSuccess)
  | .deviceInterface, .QueryInterface result dev => decide (result = 0) && decide (dev ≠ 0)
  | .session, .USBDeviceOpen kerr => decide (kerr = kIOReturnSuccess)
  | _, _ => false

/-- The call gives a resource of kind `r` back to the platform. -/
def releases : Resource → Call → Bool
  | .machPort, .mach_port_deallocate _ => true
  | .notificationPort, .IONotificationPortDestroy => true
  | .iterator, .IOObjectRelease .iterator => true
  | .service, .IOObjectRelease .device => true
  | .plugIn, .IODestroyPlugInInterface => true
  | .deviceInterface, .Release => true
  | .session, .USBDeviceClose => true
  | _, _ => false

/-- The number of resources of kind `r` held after the calls `tr`, when `n`
were held before; `none` when a release is made while none is held. -/
def held (r : Resource) : List Call → Nat → Option Nat
  | [], n => some n
  | c :: rest, n =>
    if acquires r c then held r rest (n + 1)
    else if releases r c then
      match n with
      | 0 => none
      | m + 1 => held r rest m
    else held r rest n

/-! ## Example inputs -/

/-- A `strtol` that returns `v` for every string: the `strtol` of libc, restricted
to command lines whose two arguments both denote `v`. -/
def strtolConst (v : Int) : String → Int := fun _ => v

/-- A device on which every call succeeds at the first attempt. -/
def freeDevice : Device :=
  Device.mk kIOReturnSuccess 0 1 0x05ac 0x12a8 0x0100 (fun _ => kIOReturnSuccess)
    kIOReturnSuccess 1 kIOReturnSuccess 1 kIOReturnSuccess kIOReturnSuccess

/-- A device another process holds open: every `USBDeviceOpen` reports
`kIOReturnExclusiveAccess`. -/
def busyDevice : Device :=
  Device.mk kIOReturnSuccess 0 1 0x05ac 0x12a8 0x0100 (fun _ => kIOReturnExclusiveAccess)
    kIOReturnSuccess 1 kIOReturnSuccess 1 kIOReturnSuccess kIOReturnSuccess

/-- A device that is busy at the first two attempts to open it and free at
the third. -/
def brieflyBusyDevice : Device :=
  Device.mk kIOReturnSuccess 0 1 0x05ac 0x12a8 0x0100
    (fun n => if n < 2 then kIOReturnExclusiveAccess else kIOReturnSuccess)
    kIOReturnSuccess 1 kIOReturnSuccess 1 kIOReturnSuccess kIOReturnSuccess

/-- A device on which `GetNumberOfConfigurations` fails with
`kIOReturnNoDevice` and stores nothing, so that `nConf` keeps the value the
stack held (here 1); every other call succeeds. -/
def countQueryFailsDevice : Device :=
  Device.mk kIOReturnSuccess 0 1 0x05ac 0x12a8 0x0100 (fun _ => kIOReturnSuccess)
    kIOReturnNoDevice 1 kIOReturnSuccess 1 kIOReturnSuccess kIOReturnSuccess

/-- A `strtol` for the command line `devreset 4294967297 1`: the value of
`strtol (s, NULL, 0)` with a 64-bit `long` on the two arguments. -/
def strtolWide : String → Int := fun s => if s = "1" then 1 else 4294967297

/-- A platform on which the start-up calls of `main` succeed and the iterator
yields the devices `ds`. -/
def readyPlatform (ds : List Device) : Platform :=
  Platform.mk 0 0x103 1 1 kIOReturnSuccess ds

/-! ## Lemmas on the loops -/

theorem toSInt32_of_range (x : Int) (h1 : 1 ≤ x) (h2 : x ≤ 0xffff) : toSInt32 x = x := by
  unfold toSInt32
  omega

theorem busy_ne_success : kIOReturnExclusiveAccess ≠ kIOReturnSuccess := by decide

theorem openLoop_of_ne (f : Nat → Int) (u n : Nat) (h : f n ≠ kIOReturnExclusiveAccess) :
    openLoop f u n = (f n, [Call.USBDeviceOpen (f n)]) := by
  rw [openLoop]; simp [h]

theorem openLoop_busy_lt (f : Nat → Int) (u n : Nat) (h : f n = kIOReturnExclusiveAccess)
    (hu : u + 1 < kExcAccMaxWait) :
    openLoop f u n = ((openLoop f (u + 1) (n + 1)).1,
      busyRounds u 1 ++ (openLoop f (u + 1) (n + 1)).2) := by
  rw [openLoop]; simp [h, hu, busyRounds]

theorem openLoop_busy_last (f : Nat → Int) (u n : Nat) (h : f n = kIOReturnExclusiveAccess)
    (hu : ¬ u + 1 < kExcAccMaxWait) :
    openLoop f u n = (kIOReturnExclusiveAccess, busyRounds u 1) := by
  rw [openLoop]; simp [h, hu, busyRounds]

/-- After `k` busy rounds the loop is where it would be had it been entered
with the counter at `u + k`. -/
theorem openLoop_busy_rounds (f : Nat → Int) (k : Nat) :
    ∀ u n, u + k < kExcAccMaxWait → (∀ i, i < k → f (n + i) = kIOReturnExclusiveAccess) →
      openLoop f u n = ((openLoop f (u + k) (n + k)).1,
        busyRounds u k ++ (openLoop f (u + k) (n + k)).2) := by
  induction k with
  | zero => intro u n _ _; simp [busyRounds]
  | succ k ih =>
    intro u n hu hb
    have h0 : f n = kIOReturnExclusiveAccess := by simpa using hb 0 (Nat.succ_pos k)
    have hlt : u + 1 < kExcAccMaxWait := by omega
    have hrest : ∀ i, i < k → f (n + 1 + i) = kIOReturnExclusiveAccess := by
      intro i hi
      have := hb (i + 1) (by omega)
      rwa [show n + (i + 1) = n + 1 + i by omega] at this
    rw [openLoop_busy_lt f u n h0 hlt, ih (u + 1) (n + 1) (by omega) hrest]
    simp [busyRounds, show u + 1 + k = u + (k + 1) by omega,
      show n + 1 + k = n + (k + 1) by omega]

theorem loopBody_append (d : Device) (tr : List Call) : loopBody d tr = tr ++ loopBody d [] := by
  simp only [loopBody]
  split_ifs <;> simp

theorem DeviceConnected_eq (ds : List Device) :
    ∀ tr, DeviceConnected ds tr =
      tr ++ ds.flatMap (fun d => Call.IOIteratorNext true :: loopBody d []) ++
        [Call.IOIteratorNext false] := by
  induction ds with
  | nil => intro tr; simp [DeviceConnected]
  | cons d rest ih =>
    intro tr
    rw [DeviceConnected, ih, loopBody_append]
    simp

theorem DeviceConnected_singleton (d : Device) :
    DeviceConnected [d] [] =
      Call.IOIteratorNext true :: loopBody d [] ++ [Call.IOIteratorNext false] := by
  rw [DeviceConnected_eq]
  simp

theorem main_of_valid (strtol : String → Int) (pf : Platform) (argv : List String)
    (hv : validIds strtol argv) (hp : pf.initOk) :
    main strtol pf argv =
      (0, startupCalls strtol pf argv ++ DeviceConnected pf.iterator [] ++
        [Call.mach_port_deallocate pf.machPort]) := by
  obtain ⟨hlen, ⟨p1, p2⟩, ⟨v1, v2⟩⟩ := hv
  obtain ⟨hk, hm, hd, ha⟩ := hp
  have hP := toSInt32_of_range _ p1 p2
  have hV := toSInt32_of_range _ v1 v2
  have hnot : ¬ argv.length < 3 := by omega
  rw [DeviceConnected_eq pf.iterator []]
  simp only [main, hnot, if_false, hP, hV, startupCalls]
  rw [DeviceConnected_eq]
  generalize strtol (argv.getD 1 "") = p at *
  generalize strtol (argv.getD 2 "") = v at *
  have hc : ¬ (p ≤ 0 ∨ p > 0xffff ∨ v ≤ 0 ∨ v > 0xffff) := by omega
  simp [hc, hk, hm, hd, ha]

theorem loopBody_of_open_failed (d : Device) (hr : d.resolves)
    (ho : (openLoop d.usbDeviceOpen 0 0).1 ≠ kIOReturnSuccess) :
    loopBody d [] = resolveCalls d ++ (openLoop d.usbDeviceOpen 0 0).2 ++
      [Call.fprintf Stream.stderr (Msg.couldNotOpen (openLoop d.usbDeviceOpen 0 0).1),
       Call.Release] := by
  obtain ⟨h1, h2, h3⟩ := hr
  simp [loopBody, resolveCalls, h1, h2, h3, ho]

theorem loopBody_of_opened (d : Device) (hr : d.resolves)
    (ho : (openLoop d.usbDeviceOpen 0 0).1 = kIOReturnSuccess) :
    loopBody d [] = resolveCalls d ++ (openLoop d.usbDeviceOpen 0 0).2 ++ (ConfigureDevice d).2 ++
      (if (ConfigureDevice d).1 ≠ kIOReturnSuccess then
        [Call.fprintf Stream.stderr Msg.couldNotConfigure, Call.USBDeviceClose, Call.Release]
      else
        [Call.USBDeviceReEnumerate 0 d.reEnumKerr] ++
        (if d.reEnumKerr ≠ kIOReturnSuccess then
          [Call.fprintf Stream.stdout (Msg.reEnumerateError d.reEnumKerr)] else []) ++
        [Call.USBDeviceClose, Call.Release]) := by
  obtain ⟨h1, h2, h3⟩ := hr
  simp only [loopBody, h1, h2, h3, ho, resolveCalls]
  split_ifs <;> simp_all

theorem ConfigureDevice_of_configures (d : Device) (hc : d.configures) :
    ConfigureDevice d = (kIOReturnSuccess,
      [Call.GetNumberOfConfigurations kIOReturnSuccess d.nConf,
       Call.GetConfigurationDescriptorPtr 0 kIOReturnSuccess,
       Call.SetConfiguration d.bConfigurationValue kIOReturnSuccess]) := by
  obtain ⟨h1, h2, h3, h4⟩ := hc
  have hn : d.nConf ≠ 0 := by omega
  simp [ConfigureDevice, h1, hn, h3, h4, kIOReturnSuccess]

/-- The calls of one pass through the loop for a device on which every step
succeeds. -/
theorem loopBody_of_all_succeed (d : Device) (hr : d.resolves)
    (ho : d.usbDeviceOpen 0 = kIOReturnSuccess) (hc : d.configures)
    (he : d.reEnumKerr = kIOReturnSuccess) :
    loopBody d [] = resolveCalls d ++
      [Call.USBDeviceOpen kIOReturnSuccess,
       Call.GetNumberOfConfigurations kIOReturnSuccess d.nConf,
       Call.GetConfigurationDescriptorPtr 0 kIOReturnSuccess,
       Call.SetConfiguration d.bConfigurationValue kIOReturnSuccess,
       Call.USBDeviceReEnumerate 0 kIOReturnSuccess,
       Call.USBDeviceClose, Call.Release] := by
  have hne : d.usbDeviceOpen 0 ≠ kIOReturnExclusiveAccess := by
    rw [ho]; exact fun h => busy_ne_success h.symm
  have hopen := openLoop_of_ne d.usbDeviceOpen 0 0 hne
  rw [loopBody_of_opened d hr (by rw [hopen, ho]), hopen, ConfigureDevice_of_configures d hc]
  simp [ho, he]

/-- The open loop on a device that is busy at every attempt. -/
theorem openLoop_of_always_busy (f : Nat → Int) (hb : ∀ n, f n = kIOReturnExclusiveAccess) :
    openLoop f 0 0 = (kIOReturnExclusiveAccess, busyRounds 0 kExcAccMaxWait) := by
  have h4 := openLoop_busy_rounds f 4 0 0 (by decide) (fun i _ => by simpa using hb i)
  rw [h4, openLoop_busy_last f (0 + 4) (0 + 4) (hb _) (by decide)]
  simp [busyRounds, kExcAccMaxWait]

theorem countP_isOpen_busyRounds (k : Nat) :
    ∀ u, (busyRounds u k).countP Call.isOpen = k := by
  induction k with
  | zero => intro u; simp [busyRounds]
  | succ k ih => intro u; simp [busyRounds, List.countP_cons, Call.isOpen, ih]

theorem countP_isSleep_busyRounds (k : Nat) :
    ∀ u, (busyRounds u k).countP Call.isSleep = k := by
  induction k with
  | zero => intro u; simp [busyRounds]
  | succ k ih => intro u; simp [busyRounds, List.countP_cons, Call.isSleep, ih]

theorem countP_isOpen_ConfigureDevice (d : Device) :
    (ConfigureDevice d).2.countP Call.isOpen = 0 := by
  simp only [ConfigureDevice]
  split_ifs <;> simp [Call.isOpen]

theorem countP_isSleep_ConfigureDevice (d : Device) :
    (ConfigureDevice d).2.countP Call.isSleep = 0 := by
  simp only [ConfigureDevice]
  split_ifs <;> simp [Call.isSleep]

/-- The open loop on a device that is busy `k < 5` times and then answers
something else. -/
theorem openLoop_of_busy_then (f : Nat → Int) (k : Nat) (hk : k < kExcAccMaxWait)
    (hb : ∀ i, i < k → f i = kIOReturnExclusiveAccess)
    (hs : f k ≠ kIOReturnExclusiveAccess) :
    openLoop f 0 0 = (f k, busyRounds 0 k ++ [Call.USBDeviceOpen (f k)]) := by
  rw [openLoop_busy_rounds f k 0 0 (by omega) (fun i hi => by simpa using hb i hi)]
  rw [openLoop_of_ne f (0 + k) (0 + k) (by simpa using hs)]
  simp

/-! ## Lemmas on resources -/

theorem held_append (r : Resource) (a b : List Call) :
    ∀ n, held r (a ++ b) n = (held r a n).bind (held r b) := by
  induction a with
  | nil => intro n; simp [held]
  | cons c rest ih =>
    intro n
    simp only [List.cons_append, held]
    split_ifs
    · exact ih _
    · cases n with
      | zero => simp
      | succ m => exact ih _
    · exact ih _

theorem held_of_neutral (r : Resource) (tr : List Call)
    (h : ∀ c ∈ tr, acquires r c = false ∧ releases r c = false) :
    ∀ n, held r tr n = some n := by
  induction tr with
  | nil => intro n; simp [held]
  | cons c rest ih =>
    intro n
    have hc := h c (List.mem_cons_self _ _)
    simp only [held, hc.1, hc.2]
    simpa using ih (fun x hx => h x (List.mem_cons_of_mem _ hx)) n

theorem isConfigure_of_mem_ConfigureDevice (d : Device) :
    ∀ c ∈ (ConfigureDevice d).2, c.isConfigure = true := by
  simp only [ConfigureDevice]
  split_ifs <;> simp [Call.isConfigure]

theorem neutral_of_isConfigure (r : Resource) (c : Call) (h : c.isConfigure = true) :
    acquires r c = false ∧ releases r c = false := by
  cases c <;> simp [Call.isConfigure] at h <;> cases r <;> simp [acquires, releases]

theorem held_ConfigureDevice (r : Resource) (d : Device) (n : Nat) :
    held r (ConfigureDevice d).2 n = some n :=
  held_of_neutral r _
    (fun c hc => neutral_of_isConfigure r c (isConfigure_of_mem_ConfigureDevice d c hc)) n

/-- The open loop acquires a session exactly when it ends in success. -/
theorem held_openLoop (r : Resource) (f : Nat → Int) (u k : Nat) :
    ∀ n, held r (openLoop f u k).2 n =
      some (if r = Resource.session ∧ (openLoop f u k).1 = kIOReturnSuccess then n + 1
        else n) := by
  induction u, k using openLoop.induct f with
  | case1 u k kerr hbusy hlt ih =>
    intro n
    rw [openLoop_busy_lt f u k hbusy hlt, held_append]
    have hb : held r (busyRounds u 1) n = some n := by
      apply held_of_neutral
      intro c hc
      simp [busyRounds] at hc
      rcases hc with h | h | h <;> subst h <;> cases r <;>
        simp [acquires, releases, kIOReturnExclusiveAccess, kIOReturnSuccess]
    rw [hb]
    simpa using ih n
  | case2 u k kerr hbusy hlt =>
    intro n
    rw [openLoop_busy_last f u k hbusy hlt]
    have hb : held r (busyRounds u 1) n = some n := by
      apply held_of_neutral
      intro c hc
      simp [busyRounds] at hc
      rcases hc with h | h | h <;> subst h <;> cases r <;>
        simp [acquires, releases, kIOReturnExclusiveAccess, kIOReturnSuccess]
    rw [hb]
    simp [busy_ne_success]
  | case3 u k kerr hne =>
    intro n
    rw [openLoop_of_ne f u k hne]
    cases r <;> simp [held, acquires, releases]
    split_ifs <;> simp_all

/-- One pass through the loop gives back every resource it acquires, and
releases none it does not hold. -/
theorem held_pass (r : Resource) (d : Device) (n : Nat) :
    held r (Call.IOIteratorNext true :: loopBody d []) n = some n := by
  simp only [loopBody, List.nil_append]
  split_ifs with h1 h2 h3 h4 h5 <;> cases r <;>
    (try simp only [ne_eq, not_not, not_or] at *) <;>
    simp [held, held_append, held_openLoop, held_ConfigureDevice, acquires, releases, *]
  tauto

theorem held_passes (r : Resource) (ds : List Device) :
    ∀ n, held r (ds.flatMap (fun d => Call.IOIteratorNext true :: loopBody d [])) n =
      some n := by
  induction ds with
  | nil => intro n; simp [held]
  | cons d rest ih =>
    intro n
    rw [List.flatMap_cons, held_append, held_pass]
    simpa using ih n

theorem held_DeviceConnected (r : Resource) (ds : List Device) (n : Nat) :
    held r (DeviceConnected ds []) n = some n := by
  rw [DeviceConnected_eq, List.nil_append, held_append, held_passes]
  cases r <;> simp [held, acquires, releases]

theorem DeviceConnected_acc (ds : List Device) (tr : List Call) :
    DeviceConnected ds tr = tr ++ DeviceConnected ds [] := by
  rw [DeviceConnected_eq ds tr, DeviceConnected_eq ds []]
  simp

/-- The two ways `main` ends: with code 1 before `DeviceConnected`, or with
code 0 after `DeviceConnected` and the deallocation of the mach port. -/
theorem main_cases (strtol : String → Int) (pf : Platform) (argv : List String) :
    (∃ pre, main strtol pf argv = (1, pre) ∧ ∀ c ∈ pre, c.isStartup = true) ∨
    (∃ pre, main strtol pf argv =
        (0, pre ++ DeviceConnected pf.iterator [] ++
          [Call.mach_port_deallocate pf.machPort]) ∧
      (∀ c ∈ pre, c.isStartup = true) ∧ held Resource.machPort pre 0 = some 1) := by
  simp only [main]
  split_ifs with h1 h2 h3 h4 h5
  · exact Or.inl ⟨_, rfl, by simp [Call.isStartup]⟩
  · exact Or.inl ⟨_, rfl, by simp [Call.isStartup]⟩
  · exact Or.inl ⟨_, rfl, by simp [Call.isStartup]⟩
  · exact Or.inl ⟨_, rfl, by simp [Call.isStartup]⟩
  · exact Or.inl ⟨_, rfl, by simp [Call.isStartup]⟩
  · refine Or.inr ⟨_, by rw [DeviceConnected_acc], by simp [Call.isStartup], ?_⟩
    simp only [not_or, ne_eq, not_not] at h3
    simp [held, acquires, releases, h3.1, h3.2]

theorem neutral_of_isStartup (r : Resource) (hr : r.perDevice = true) (c : Call)
    (h : c.isStartup = true) : acquires r c = false ∧ releases r c = false := by
  cases c <;> simp [Call.isStartup] at h <;> cases r <;>
    simp [Resource.perDevice] at hr <;> simp [acquires, releases]

theorem isOpen_of_isStartup (c : Call) (h : c.isStartup = true) : c.isOpen = false := by
  cases c <;> simp [Call.isStartup] at h <;> rfl

theorem isSleep_of_isStartup (c : Call) (h : c.isStartup = true) : c.isSleep = false := by
  cases c <;> simp [Call.isStartup] at h <;> rfl

theorem isNextDevice_of_isStartup (c : Call) (h : c.isStartup = true) :
    c.isNextDevice = false := by
  cases c <;> simp [Call.isStartup] at h <;> rfl

theorem countP_eq_zero_of_isStartup (p : Call → Bool) (tr : List Call)
    (hp : ∀ c, c.isStartup = true → p c = false) (h : ∀ c ∈ tr, c.isStartup = true) :
    tr.countP p = 0 := by
  rw [List.countP_eq_zero]
  intro c hc
  simp [hp c (h c hc)]

/-! ## Lemmas on the number of attempts -/

theorem countP_isOpen_openLoop_le (f : Nat → Int) (u k : Nat) :
    (openLoop f u k).2.countP Call.isOpen ≤ (kExcAccMaxWait - u - 1) + 1 := by
  induction u, k using openLoop.induct f with
  | case1 u k kerr hbusy hlt ih =>
    rw [openLoop_busy_lt f u k hbusy hlt]
    simp only [List.countP_append, countP_isOpen_busyRounds]
    omega
  | case2 u k kerr hbusy hlt =>
    rw [openLoop_busy_last f u k hbusy hlt]
    simp only [countP_isOpen_busyRounds]
    omega
  | case3 u k kerr hne =>
    rw [openLoop_of_ne f u k hne]
    simp [Call.isOpen]

theorem countP_isSleep_openLoop_le (f : Nat → Int) (u k : Nat) :
    (openLoop f u k).2.countP Call.isSleep ≤ (kExcAccMaxWait - u - 1) + 1 := by
  induction u, k using openLoop.induct f with
  | case1 u k kerr hbusy hlt ih =>
    rw [openLoop_busy_lt f u k hbusy hlt]
    simp only [List.countP_append, countP_isSleep_busyRounds]
    omega
  | case2 u k kerr hbusy hlt =>
    rw [openLoop_busy_last f u k hbusy hlt]
    simp only [countP_isSleep_busyRounds]
    omega
  | case3 u k kerr hne =>
    rw [openLoop_of_ne f u k hne]
    simp [Call.isSleep]

theorem countP_isNextDevice_openLoop (f : Nat → Int) (u k : Nat) :
    (openLoop f u k).2.countP Call.isNextDevice = 0 := by
  induction u, k using openLoop.induct f with
  | case1 u k kerr hbusy hlt ih =>
    rw [openLoop_busy_lt f u k hbusy hlt]
    simp [List.countP_append, busyRounds, Call.isNextDevice, List.countP_cons, ih]
  | case2 u k kerr hbusy hlt =>
    rw [openLoop_busy_last f u k hbusy hlt]
    simp [busyRounds, Call.isNextDevice, List.countP_cons]
  | case3 u k kerr hne =>
    rw [openLoop_of_ne f u k hne]
    simp [Call.isNextDevice]

theorem countP_isNextDevice_ConfigureDevice (d : Device) :
    (ConfigureDevice d).2.countP Call.isNextDevice = 0 := by
  simp only [ConfigureDevice]
  split_ifs <;> simp [Call.isNextDevice]

theorem countP_isOpen_loopBody_le (d : Device) :
    (loopBody d []).countP Call.isOpen ≤ kExcAccMaxWait := by
  have h := countP_isOpen_openLoop_le d.usbDeviceOpen 0 0
  have hc := countP_isOpen_ConfigureDevice d
  simp only [kExcAccMaxWait] at h ⊢
  simp only [loopBody, List.nil_append]
  split_ifs <;> simp [List.countP_append, List.countP_cons, Call.isOpen, hc] <;> omega

theorem countP_isSleep_loopBody_le (d : Device) :
    (loopBody d []).countP Call.isSleep ≤ kExcAccMaxWait := by
  have h := countP_isSleep_openLoop_le d.usbDeviceOpen 0 0
  have hc := countP_isSleep_ConfigureDevice d
  simp only [kExcAccMaxWait] at h ⊢
  simp only [loopBody, List.nil_append]
  split_ifs <;> simp [List.countP_append, List.countP_cons, Call.isSleep, hc] <;> omega

theorem countP_isNextDevice_loopBody (d : Device) :
    (loopBody d []).countP Call.isNextDevice = 0 := by
  have h := countP_isNextDevice_openLoop d.usbDeviceOpen 0 0
  have hc := countP_isNextDevice_ConfigureDevice d
  simp only [loopBody, List.nil_append]
  split_ifs <;> simp [List.countP_append, List.countP_cons, Call.isNextDevice, hc, h]

theorem countP_passes_le (p : Call → Bool) (b : Nat) (g : Device → List Call)
    (hg : ∀ d, (g d).countP p ≤ b) (ds : List Device) :
    (ds.flatMap g).countP p ≤ b * ds.length := by
  induction ds with
  | nil => simp
  | cons d rest ih =>
    rw [List.flatMap_cons, List.countP_append, List.length_cons, Nat.mul_succ]
    have := hg d
    omega

theorem countP_passes_eq (p : Call → Bool) (b : Nat) (g : Device → List Call)
    (hg : ∀ d, (g d).countP p = b) (ds : List Device) :
    (ds.flatMap g).countP p = b * ds.length := by
  induction ds with
  | nil => simp
  | cons d rest ih =>
    rw [List.flatMap_cons, List.countP_append, List.length_cons, Nat.mul_succ, hg d, ih]
    omega

/-! ## The claims -/

/-- C1: with valid identifiers, a successful start-up and one matched device
on which interface resolution, open, the configuration-count query (count at
least 1), the descriptor fetch, `SetConfiguration` and re-enumeration all
succeed, `DeviceConnected` makes exactly the calls listed (so the calls that
change the device are, in order and once each, `USBDeviceOpen`,
`SetConfiguration` with the `bConfigurationValue` of the descriptor at index 0,
`USBDeviceReEnumerate` with options 0, `USBDeviceClose`, `Release`), and `main`
returns 0. -/
theorem single_device_reset_sequence (strtol : String → Int) (pf : Platform)
    (argv : List String) (d : Device)
    (hv : validIds strtol argv) (hp : pf.initOk) (hit : pf.iterator = [d])
    (hr : d.resolves) (ho : d.usbDeviceOpen 0 = kIOReturnSuccess)
    (hc : d.configures) (he : d.reEnumKerr = kIOReturnSuccess) :
    DeviceConnected [d] [] =
      Call.IOIteratorNext true :: resolveCalls d ++
        [Call.USBDeviceOpen kIOReturnSuccess,
         Call.GetNumberOfConfigurations kIOReturnSuccess d.nConf,
         Call.GetConfigurationDescriptorPtr 0 kIOReturnSuccess,
         Call.SetConfiguration d.bConfigurationValue kIOReturnSuccess,
         Call.USBDeviceReEnumerate 0 kIOReturnSuccess,
         Call.USBDeviceClose, Call.Release, Call.IOIteratorNext false] ∧
    (main strtol pf argv).2.filter Call.changesDevice =
      [Call.USBDeviceOpen kIOReturnSuccess,
       Call.SetConfiguration d.bConfigurationValue kIOReturnSuccess,
       Call.USBDeviceReEnumerate 0 kIOReturnSuccess,
       Call.USBDeviceClose, Call.Release] ∧
    (main strtol pf argv).1 = 0 := by
  have hloop : DeviceConnected [d] [] = Call.IOIteratorNext true :: resolveCalls d ++
      [Call.USBDeviceOpen kIOReturnSuccess,
       Call.GetNumberOfConfigurations kIOReturnSuccess d.nConf,
       Call.GetConfigurationDescriptorPtr 0 kIOReturnSuccess,
       Call.SetConfiguration d.bConfigurationValue kIOReturnSuccess,
       Call.USBDeviceReEnumerate 0 kIOReturnSuccess,
       Call.USBDeviceClose, Call.Release, Call.IOIteratorNext false] := by
    rw [DeviceConnected_singleton, loopBody_of_all_succeed d hr ho hc he]
    simp
  refine ⟨hloop, ?_, ?_⟩
  · rw [main_of_valid strtol pf argv hv hp, hit, hloop]
    simp [startupCalls, resolveCalls, Call.changesDevice, List.filter_cons]
  · rw [main_of_valid strtol pf argv hv hp]

/-- C1 at a concrete input: the command line `devreset 1 1` and one free
device. -/
theorem single_device_reset_sequence_witness :
    validIds (strtolConst 1) ["devreset", "1", "1"] ∧
    (readyPlatform [freeDevice]).initOk ∧ freeDevice.resolves ∧ freeDevice.configures ∧
    (main (strtolConst 1) (readyPlatform [freeDevice]) ["devreset", "1", "1"]).1 = 0 :=
  have hv : validIds (strtolConst 1) ["devreset", "1", "1"] := by
    simp [validIds, strtolConst]
  have hp : (readyPlatform [freeDevice]).initOk := by
    simp [Platform.initOk, readyPlatform, kIOReturnSuccess]
  have hr : freeDevice.resolves := by simp [Device.resolves, freeDevice]
  have hc : freeDevice.configures := by simp [Device.configures, freeDevice]
  ⟨hv, hp, hr, hc,
    (single_device_reset_sequence (strtolConst 1) (readyPlatform [freeDevice])
      ["devreset", "1", "1"] freeDevice hv hp rfl hr rfl hc rfl).2.2⟩

/-- C2: with valid identifiers, a successful start-up and one matched device
whose every `USBDeviceOpen` reports `kIOReturnExclusiveAccess`, the program
makes exactly `kExcAccMaxWait` (5) open attempts, each followed by a sleep of
one second, then logs `could not open device`, releases the device interface,
makes no call of the configure step, no `USBDeviceReEnumerate` and no
`USBDeviceClose`, and exits with code 0. -/
theorem busy_device_five_attempts (strtol : String → Int) (pf : Platform)
    (argv : List String) (d : Device)
    (hv : validIds strtol argv) (hp : pf.initOk) (hit : pf.iterator = [d])
    (hr : d.resolves) (hb : ∀ n, d.usbDeviceOpen n = kIOReturnExclusiveAccess) :
    DeviceConnected [d] [] =
      Call.IOIteratorNext true :: resolveCalls d ++
        [Call.USBDeviceOpen kIOReturnExclusiveAccess,
         Call.fprintf Stream.stdout (Msg.waitingForAccess 5), Call.sleep 1,
         Call.USBDeviceOpen kIOReturnExclusiveAccess,
         Call.fprintf Stream.stdout (Msg.waitingForAccess 4), Call.sleep 1,
         Call.USBDeviceOpen kIOReturnExclusiveAccess,
         Call.fprintf Stream.stdout (Msg.waitingForAccess 3), Call.sleep 1,
         Call.USBDeviceOpen kIOReturnExclusiveAccess,
         Call.fprintf Stream.stdout (Msg.waitingForAccess 2), Call.sleep 1,
         Call.USBDeviceOpen kIOReturnExclusiveAccess,
         Call.fprintf Stream.stdout (Msg.waitingForAccess 1), Call.sleep 1,
         Call.fprintf Stream.stderr (Msg.couldNotOpen kIOReturnExclusiveAccess),
         Call.Release, Call.IOIteratorNext false] ∧
    (main strtol pf argv).2.countP Call.isOpen = kExcAccMaxWait ∧
    (main strtol pf argv).2.countP Call.isSleep = kExcAccMaxWait ∧
    (main strtol pf argv).2.countP Call.isRelease = 1 ∧
    (∀ c ∈ (main strtol pf argv).2,
      c.isConfigure = false ∧ c.isReEnumerate = false ∧ c.isClose = false) ∧
    (main strtol pf argv).1 = 0 := by
  have hopen := openLoop_of_always_busy d.usbDeviceOpen hb
  have hbody := loopBody_of_open_failed d hr (by rw [hopen]; exact busy_ne_success)
  rw [hopen] at hbody
  have hloop : DeviceConnected [d] [] = Call.IOIteratorNext true :: resolveCalls d ++
      busyRounds 0 kExcAccMaxWait ++
      [Call.fprintf Stream.stderr (Msg.couldNotOpen kIOReturnExclusiveAccess),
       Call.Release, Call.IOIteratorNext false] := by
    rw [DeviceConnected_singleton, hbody]
    simp
  have hmain := main_of_valid strtol pf argv hv hp
  rw [hit, hloop] at hmain
  refine ⟨?_, ?_, ?_, ?_, ?_, ?_⟩
  · rw [hloop]; simp [busyRounds, kExcAccMaxWait]
  · rw [hmain]
    simp [startupCalls, resolveCalls, busyRounds, kExcAccMaxWait, Call.isOpen,
      List.countP_cons]
  · rw [hmain]
    simp [startupCalls, resolveCalls, busyRounds, kExcAccMaxWait, Call.isSleep,
      List.countP_cons]
  · rw [hmain]
    simp [startupCalls, resolveCalls, busyRounds, kExcAccMaxWait, Call.isRelease,
      List.countP_cons]
  · rw [hmain]
    simp [startupCalls, resolveCalls, busyRounds, kExcAccMaxWait, Call.isConfigure,
      Call.isReEnumerate, Call.isClose]
  · rw [hmain]

/-- C2 at a concrete input: the command line `devreset 1 1` and one device
that stays busy. -/
theorem busy_device_five_attempts_witness :
    validIds (strtolConst 1) ["devreset", "1", "1"] ∧
    (readyPlatform [busyDevice]).initOk ∧ busyDevice.resolves ∧
    (∀ n, busyDevice.usbDeviceOpen n = kIOReturnExclusiveAccess) ∧
    (main (strtolConst 1) (readyPlatform [busyDevice]) ["devreset", "1", "1"]).2.countP
      Call.isOpen = kExcAccMaxWait :=
  have hv : validIds (strtolConst 1) ["devreset", "1", "1"] := by
    simp [validIds, strtolConst]
  have hp : (readyPlatform [busyDevice]).initOk := by
    simp [Platform.initOk, readyPlatform, kIOReturnSuccess]
  have hr : busyDevice.resolves := by simp [Device.resolves, busyDevice]
  ⟨hv, hp, hr, fun _ => rfl,
    (busy_device_five_attempts (strtolConst 1) (readyPlatform [busyDevice])
      ["devreset", "1", "1"] busyDevice hv hp rfl hr (fun _ => rfl)).2.1⟩

/-- C3 (the code departs from the claim): on the command line
`devreset 4294967297 1` the first argument denotes `2^32 + 1`, outside
`1 .. 0xFFFF`, yet it is stored in an `SInt32` before the range check, becomes
1 and passes: `main` goes on to call `IOMasterPort`, and exits with code 0
when start-up succeeds. -/
theorem wide_product_id_accepted (strtol : String → Int) (pf : Platform)
    (hp : strtol "4294967297" = 4294967297) (hv : strtol "1" = 1) :
    ¬ (1 ≤ strtol "4294967297" ∧ strtol "4294967297" ≤ 0xffff) ∧
    toSInt32 (strtol "4294967297") = 1 ∧
    Call.IOMasterPort pf.masterPortKerr pf.machPort ∈
      (main strtol pf ["devreset", "4294967297", "1"]).2 ∧
    (pf.initOk → (main strtol pf ["devreset", "4294967297", "1"]).1 = 0) := by
  have h32 : toSInt32 4294967297 = 1 := by decide
  have h1 : toSInt32 1 = 1 := by decide
  refine ⟨by rw [hp]; decide, by rw [hp, h32], ?_, ?_⟩
  · simp only [main, List.length_cons, List.length_nil, List.getD_cons_succ,
      List.getD_cons_zero, hp, hv, h32, h1]
    simp
    split_ifs <;> simp [DeviceConnected_eq]
  · rintro ⟨hk, hm, hd, ha⟩
    simp only [main, List.length_cons, List.length_nil, List.getD_cons_succ,
      List.getD_cons_zero, hp, hv, h32, h1]
    simp [hk, hm, hd, ha]

/-- C3 at a concrete `strtol` and platform. -/
theorem wide_product_id_accepted_witness :
    strtolWide "4294967297" = 4294967297 ∧ strtolWide "1" = 1 ∧
    (main strtolWide (readyPlatform []) ["devreset", "4294967297", "1"]).1 = 0 :=
  have hp : strtolWide "4294967297" = 4294967297 := by decide
  have hv : strtolWide "1" = 1 := by decide
  ⟨hp, hv, (wide_product_id_accepted strtolWide (readyPlatform []) hp hv).2.2.2
    (by simp [Platform.initOk, readyPlatform, kIOReturnSuccess])⟩

/-- C5: with valid identifiers and a successful start-up, when the iterator
yields no device `main` returns 0 after the calls listed; none of them is a
`USBDeviceOpen`, a call of the configure step or a `USBDeviceReEnumerate`. -/
theorem no_device_no_reset (strtol : String → Int) (pf : Platform) (argv : List String)
    (hv : validIds strtol argv) (hp : pf.initOk) (hit : pf.iterator = []) :
    main strtol pf argv =
      (0, startupCalls strtol pf argv ++
        [Call.IOIteratorNext false, Call.mach_port_deallocate pf.machPort]) ∧
    ∀ c ∈ (main strtol pf argv).2,
      c.isOpen = false ∧ c.isConfigure = false ∧ c.isReEnumerate = false := by
  have hmain := main_of_valid strtol pf argv hv hp
  rw [hit] at hmain
  simp only [DeviceConnected, List.nil_append, List.append_assoc, List.singleton_append]
    at hmain
  refine ⟨hmain, ?_⟩
  rw [hmain]
  simp [startupCalls, Call.isOpen, Call.isConfigure, Call.isReEnumerate]

/-- C5 at a concrete input: the command line `devreset 1 1` and no device. -/
theorem no_device_no_reset_witness :
    validIds (strtolConst 1) ["devreset", "1", "1"] ∧ (readyPlatform []).initOk ∧
    (main (strtolConst 1) (readyPlatform []) ["devreset", "1", "1"]).1 = 0 :=
  have hv : validIds (strtolConst 1) ["devreset", "1", "1"] := by
    simp [validIds, strtolConst]
  have hp : (readyPlatform []).initOk := by
    simp [Platform.initOk, readyPlatform, kIOReturnSuccess]
  ⟨hv, hp, congrArg Prod.fst
    (no_device_no_reset (strtolConst 1) (readyPlatform []) ["devreset", "1", "1"]
      hv hp rfl).1⟩

/-- C6: when `argc < 3` (fewer than two arguments after the program name),
`main` exits with code 1 and its only call is the `fprintf` of the usage
message to standard error: no `strtol`, no hardware call. -/
theorem too_few_arguments_usage (strtol : String → Int) (pf : Platform)
    (argv : List String) (h : argv.length < 3) :
    main strtol pf argv = (1, [Call.fprintf Stream.stderr (Msg.usage argv.head?)]) := by
  simp [main, h]

/-- C6 at a concrete input: the command line `devreset 0x05ac`. -/
theorem too_few_arguments_usage_witness :
    ["devreset", "0x05ac"].length < 3 ∧
    main (strtolConst 1) (readyPlatform [freeDevice]) ["devreset", "0x05ac"] =
      (1, [Call.fprintf Stream.stderr (Msg.usage (some "devreset"))]) :=
  ⟨by decide, too_few_arguments_usage (strtolConst 1) (readyPlatform [freeDevice])
    ["devreset", "0x05ac"] (by decide)⟩

/-- C9 (the code departs from the claim): on a successfully opened device
whose `GetNumberOfConfigurations` returns an error while `nConf` holds a
non-zero value, `ConfigureDevice` does not stop: it goes on to call
`GetConfigurationDescriptorPtr` and `SetConfiguration` and returns
`kIOReturnSuccess`, and `DeviceConnected` calls `USBDeviceReEnumerate`. -/
theorem count_query_error_ignored :
    countQueryFailsDevice.nConfRet ≠ kIOReturnSuccess ∧
    ConfigureDevice countQueryFailsDevice =
      (kIOReturnSuccess,
        [Call.GetNumberOfConfigurations kIOReturnNoDevice 1,
         Call.GetConfigurationDescriptorPtr 0 kIOReturnSuccess,
         Call.SetConfiguration 1 kIOReturnSuccess]) ∧
    DeviceConnected [countQueryFailsDevice] [] =
      Call.IOIteratorNext true :: resolveCalls countQueryFailsDevice ++
        [Call.USBDeviceOpen kIOReturnSuccess,
         Call.GetNumberOfConfigurations kIOReturnNoDevice 1,
         Call.GetConfigurationDescriptorPtr 0 kIOReturnSuccess,
         Call.SetConfiguration 1 kIOReturnSuccess,
         Call.USBDeviceReEnumerate 0 kIOReturnSuccess,
         Call.USBDeviceClose, Call.Release, Call.IOIteratorNext false] := by
  have hcfg : ConfigureDevice countQueryFailsDevice =
      (kIOReturnSuccess,
        [Call.GetNumberOfConfigurations kIOReturnNoDevice 1,
         Call.GetConfigurationDescriptorPtr 0 kIOReturnSuccess,
         Call.SetConfiguration 1 kIOReturnSuccess]) := by
    simp [ConfigureDevice, countQueryFailsDevice, kIOReturnSuccess]
  have hr : countQueryFailsDevice.resolves := by
    simp [Device.resolves, countQueryFailsDevice]
  have hopen : openLoop countQueryFailsDevice.usbDeviceOpen 0 0 =
      (kIOReturnSuccess, [Call.USBDeviceOpen kIOReturnSuccess]) :=
    openLoop_of_ne _ 0 0 (fun h => busy_ne_success h.symm)
  refine ⟨by decide, hcfg, ?_⟩
  rw [DeviceConnected_singleton, loopBody_of_opened _ hr (by rw [hopen]), hopen, hcfg]
  simp [countQueryFailsDevice]

/-- C10: on a matched device whose interface resolves, if the first `k`
attempts to open it (`k < 5`) report `kIOReturnExclusiveAccess` and attempt
`k + 1` reports anything else, the open loop ends with that result after
exactly `k + 1` calls of `USBDeviceOpen` and `k` sleeps; on success the pass
goes on with the calls of `ConfigureDevice`; on any other error its remaining
calls are the `could not open device` line and `Release`. -/
theorem open_retry_stops_at_first_answer (d : Device) (k : Nat)
    (hk : k < kExcAccMaxWait) (hr : d.resolves)
    (hb : ∀ i, i < k → d.usbDeviceOpen i = kIOReturnExclusiveAccess)
    (hs : d.usbDeviceOpen k ≠ kIOReturnExclusiveAccess) :
    openLoop d.usbDeviceOpen 0 0 =
      (d.usbDeviceOpen k, busyRounds 0 k ++ [Call.USBDeviceOpen (d.usbDeviceOpen k)]) ∧
    (loopBody d []).countP Call.isOpen = k + 1 ∧
    (loopBody d []).countP Call.isSleep = k ∧
    (d.usbDeviceOpen k = kIOReturnSuccess →
      ∃ rest, loopBody d [] = resolveCalls d ++ busyRounds 0 k ++
        [Call.USBDeviceOpen kIOReturnSuccess] ++ (ConfigureDevice d).2 ++ rest) ∧
    (d.usbDeviceOpen k ≠ kIOReturnSuccess →
      loopBody d [] = resolveCalls d ++ busyRounds 0 k ++
        [Call.USBDeviceOpen (d.usbDeviceOpen k),
         Call.fprintf Stream.stderr (Msg.couldNotOpen (d.usbDeviceOpen k)),
         Call.Release]) := by
  have hopen := openLoop_of_busy_then d.usbDeviceOpen k hk hb hs
  have hfail : d.usbDeviceOpen k ≠ kIOReturnSuccess →
      loopBody d [] = resolveCalls d ++ busyRounds 0 k ++
        [Call.USBDeviceOpen (d.usbDeviceOpen k),
         Call.fprintf Stream.stderr (Msg.couldNotOpen (d.usbDeviceOpen k)),
         Call.Release] := by
    intro hne
    rw [loopBody_of_open_failed d hr (by rw [hopen]; exact hne), hopen]
    simp
  have hok : d.usbDeviceOpen k = kIOReturnSuccess →
      loopBody d [] = resolveCalls d ++ busyRounds 0 k ++
        [Call.USBDeviceOpen kIOReturnSuccess] ++ (ConfigureDevice d).2 ++
        (if (ConfigureDevice d).1 ≠ kIOReturnSuccess then
          [Call.fprintf Stream.stderr Msg.couldNotConfigure, Call.USBDeviceClose,
           Call.Release]
        else
          [Call.USBDeviceReEnumerate 0 d.reEnumKerr] ++
          (if d.reEnumKerr ≠ kIOReturnSuccess then
            [Call.fprintf Stream.stdout (Msg.reEnumerateError d.reEnumKerr)] else []) ++
          [Call.USBDeviceClose, Call.Release]) := by
    intro he
    rw [loopBody_of_opened d hr (by rw [hopen]; exact he), hopen, he]
    simp
  refine ⟨hopen, ?_, ?_, fun he => ⟨_, hok he⟩, hfail⟩
  · by_cases he : d.usbDeviceOpen k = kIOReturnSuccess
    · rw [hok he]
      simp only [List.countP_append, countP_isOpen_busyRounds,
        countP_isOpen_ConfigureDevice]
      split_ifs <;> simp [resolveCalls, Call.isOpen, List.countP_cons]
    · rw [hfail he]
      simp only [List.countP_append, countP_isOpen_busyRounds]
      simp [resolveCalls, Call.isOpen, List.countP_cons]
  · by_cases he : d.usbDeviceOpen k = kIOReturnSuccess
    · rw [hok he]
      simp only [List.countP_append, countP_isSleep_busyRounds,
        countP_isSleep_ConfigureDevice]
      split_ifs <;> simp [resolveCalls, Call.isSleep, List.countP_cons]
    · rw [hfail he]
      simp only [List.countP_append, countP_isSleep_busyRounds]
      simp [resolveCalls, Call.isSleep, List.countP_cons]

/-- C10 at a concrete input: a device that is busy twice and then opens. -/
theorem open_retry_stops_at_first_answer_witness :
    2 < kExcAccMaxWait ∧ brieflyBusyDevice.resolves ∧
    (∀ i, i < 2 → brieflyBusyDevice.usbDeviceOpen i = kIOReturnExclusiveAccess) ∧
    brieflyBusyDevice.usbDeviceOpen 2 ≠ kIOReturnExclusiveAccess ∧
    (loopBody brieflyBusyDevice []).countP Call.isOpen = 2 + 1 ∧
    (loopBody brieflyBusyDevice []).countP Call.isSleep = 2 :=
  have hr : brieflyBusyDevice.resolves := by simp [Device.resolves, brieflyBusyDevice]
  have hb : ∀ i, i < 2 → brieflyBusyDevice.usbDeviceOpen i = kIOReturnExclusiveAccess := by
    intro i hi
    simp [brieflyBusyDevice, hi]
  have hs : brieflyBusyDevice.usbDeviceOpen 2 ≠ kIOReturnExclusiveAccess := by decide
  have h := open_retry_stops_at_first_answer brieflyBusyDevice 2 (by decide) hr hb hs
  ⟨by decide, hr, hb, hs, h.2.1, h.2.2.1⟩

/-- C4: the calls of `DeviceConnected` on a list of devices are the calls of
one pass per device, in order, each pass a function of the answers of that device
alone (`loopBody x []`), followed by the `IOIteratorNext` that ends the
loop.  So whatever the devices before and after it answer, a device on which
every step succeeds is opened, configured, re-enumerated, closed and
released. -/
theorem devices_processed_independently (before after : List Device) (d : Device)
    (hr : d.resolves) (ho : d.usbDeviceOpen 0 = kIOReturnSuccess)
    (hc : d.configures) (he : d.reEnumKerr = kIOReturnSuccess) :
    (∀ ds : List Device, DeviceConnected ds [] =
      ds.flatMap (fun x => Call.IOIteratorNext true :: loopBody x []) ++
        [Call.IOIteratorNext false]) ∧
    DeviceConnected (before ++ d :: after) [] =
      before.flatMap (fun x => Call.IOIteratorNext true :: loopBody x []) ++
      (Call.IOIteratorNext true :: resolveCalls d ++
        [Call.USBDeviceOpen kIOReturnSuccess,
         Call.GetNumberOfConfigurations kIOReturnSuccess d.nConf,
         Call.GetConfigurationDescriptorPtr 0 kIOReturnSuccess,
         Call.SetConfiguration d.bConfigurationValue kIOReturnSuccess,
         Call.USBDeviceReEnumerate 0 kIOReturnSuccess,
         Call.USBDeviceClose, Call.Release]) ++
      after.flatMap (fun x => Call.IOIteratorNext true :: loopBody x []) ++
      [Call.IOIteratorNext false] := by
  refine ⟨fun ds => by rw [DeviceConnected_eq]; simp, ?_⟩
  rw [DeviceConnected_eq, List.flatMap_append, List.flatMap_cons,
    loopBody_of_all_succeed d hr ho hc he]
  simp

/-- C4 at a concrete input: a free device after a busy one and one whose
count query fails. -/
theorem devices_processed_independently_witness :
    freeDevice.resolves ∧ freeDevice.configures ∧
    DeviceConnected ([busyDevice, countQueryFailsDevice] ++ freeDevice :: []) [] =
      [busyDevice, countQueryFailsDevice].flatMap
        (fun x => Call.IOIteratorNext true :: loopBody x []) ++
      (Call.IOIteratorNext true :: resolveCalls freeDevice ++
        [Call.USBDeviceOpen kIOReturnSuccess,
         Call.GetNumberOfConfigurations kIOReturnSuccess freeDevice.nConf,
         Call.GetConfigurationDescriptorPtr 0 kIOReturnSuccess,
         Call.SetConfiguration freeDevice.bConfigurationValue kIOReturnSuccess,
         Call.USBDeviceReEnumerate 0 kIOReturnSuccess,
         Call.USBDeviceClose, Call.Release]) ++
      ([] : List Device).flatMap (fun x => Call.IOIteratorNext true :: loopBody x []) ++
      [Call.IOIteratorNext false] :=
  have hr : freeDevice.resolves := by simp [Device.resolves, freeDevice]
  have hc : freeDevice.configures := by simp [Device.configures, freeDevice]
  ⟨hr, hc, (devices_processed_independently [busyDevice, countQueryFailsDevice] []
    freeDevice hr rfl hc rfl).2⟩

/-- C7 as stated fails: on the command line `devreset 1 1` with a successful
start-up and no matched device, `main` returns 0 while the notification port
and the device iterator it acquired are still held: no call releases them. -/
theorem notification_port_not_released :
    (main (strtolConst 1) (readyPlatform []) ["devreset", "1", "1"]).1 = 0 ∧
    held Resource.notificationPort
      (main (strtolConst 1) (readyPlatform []) ["devreset", "1", "1"]).2 0 = some 1 ∧
    held Resource.iterator
      (main (strtolConst 1) (readyPlatform []) ["devreset", "1", "1"]).2 0 = some 1 ∧
    ¬ ∀ r : Resource,
      held r (main (strtolConst 1) (readyPlatform []) ["devreset", "1", "1"]).2 0 =
        some 0 := by
  have hv : validIds (strtolConst 1) ["devreset", "1", "1"] := by
    simp [validIds, strtolConst]
  have hp : (readyPlatform []).initOk := by
    simp [Platform.initOk, readyPlatform, kIOReturnSuccess]
  have hmain := main_of_valid (strtolConst 1) (readyPlatform []) ["devreset", "1", "1"] hv hp
  have hn : held Resource.notificationPort
      (main (strtolConst 1) (readyPlatform []) ["devreset", "1", "1"]).2 0 = some 1 := by
    rw [hmain]
    simp [startupCalls, readyPlatform, DeviceConnected, held, acquires, releases]
  have hi : held Resource.iterator
      (main (strtolConst 1) (readyPlatform []) ["devreset", "1", "1"]).2 0 = some 1 := by
    rw [hmain]
    simp [startupCalls, readyPlatform, DeviceConnected, held, acquires, releases]
  refine ⟨by rw [hmain], hn, hi, fun h => ?_⟩
  have h0 := h Resource.notificationPort
  rw [hn] at h0
  exact absurd h0 (by decide)

/-- C7, amended: every pass through the loop of `DeviceConnected` gives back
each resource it acquires, once and never before it holds it (the
`io_service_t`, the plug-in interface, the device interface after a successful
`QueryInterface`, the session after a successful `USBDeviceOpen`); so on every
run of `main` no per-device resource is held at exit; and when `main` returns
0 the mach port has been deallocated. -/
theorem device_resources_released (strtol : String → Int) (pf : Platform)
    (argv : List String) :
    (∀ (r : Resource) (d : Device) (n : Nat),
      held r (Call.IOIteratorNext true :: loopBody d []) n = some n) ∧
    (∀ r : Resource, r.perDevice = true → held r (main strtol pf argv).2 0 = some 0) ∧
    ((main strtol pf argv).1 = 0 →
      held Resource.machPort (main strtol pf argv).2 0 = some 0) := by
  refine ⟨held_pass, ?_, ?_⟩
  · intro r hr
    rcases main_cases strtol pf argv with ⟨pre, hm, hpre⟩ | ⟨pre, hm, hpre, _⟩
    · rw [hm]
      exact held_of_neutral r pre (fun c hc => neutral_of_isStartup r hr c (hpre c hc)) 0
    · rw [hm]
      simp only [held_append, held_DeviceConnected,
        held_of_neutral r pre (fun c hc => neutral_of_isStartup r hr c (hpre c hc)) 0,
        Option.some_bind]
      cases r <;> simp [Resource.perDevice] at hr <;> simp [held, acquires, releases]
  · intro h0
    rcases main_cases strtol pf argv with ⟨pre, hm, _⟩ | ⟨pre, hm, _, hport⟩
    · rw [hm] at h0
      simp at h0
    · rw [hm]
      simp [held_append, held_DeviceConnected, hport, held, acquires, releases]

/-- C8 as stated fails: on the command line `devreset` (no identifiers) with
one free device in the iterator, `main` exits with code 1 after the usage line
and never fetches the device: the matched device is visited 0 times, not
exactly once. -/
theorem rejected_arguments_visit_no_device :
    (readyPlatform [freeDevice]).iterator.length = 1 ∧
    (main (strtolConst 1) (readyPlatform [freeDevice]) ["devreset"]).1 = 1 ∧
    (main (strtolConst 1) (readyPlatform [freeDevice]) ["devreset"]).2.countP
      Call.isNextDevice = 0 ∧
    ¬ ((main (strtolConst 1) (readyPlatform [freeDevice]) ["devreset"]).2.countP
      Call.isNextDevice = (readyPlatform [freeDevice]).iterator.length) := by
  have hm : main (strtolConst 1) (readyPlatform [freeDevice]) ["devreset"] =
      (1, [Call.fprintf Stream.stderr (Msg.usage (some "devreset"))]) := by
    simp [main]
  rw [hm]
  simp [readyPlatform, Call.isNextDevice]

/-- C8, amended: `main` is a total function of the argument vector and the
answers of the platform, so every run ends, with exit code 0 or 1.  Valid
identifiers and a successful start-up give exit code 0.  A run that ends with
code 1 fetches no device and makes no `USBDeviceOpen` and no sleep.  A run
that ends with code 0 consists of start-up calls (no fetch, open or sleep
among them), then one pass per device of the iterator, in order, then the
`IOIteratorNext` that ends the loop and the deallocation of the mach port; so
it fetches each matched device exactly once.  Each pass has exactly one fetch,
at most `kExcAccMaxWait` (5) calls of `USBDeviceOpen` and at most 5 sleeps. -/
theorem run_visits_each_device_once (strtol : String → Int) (pf : Platform)
    (argv : List String) :
    (validIds strtol argv → pf.initOk → (main strtol pf argv).1 = 0) ∧
    ((main strtol pf argv).1 = 0 ∨ (main strtol pf argv).1 = 1) ∧
    ((main strtol pf argv).1 = 1 →
      (main strtol pf argv).2.countP Call.isNextDevice = 0 ∧
      (main strtol pf argv).2.countP Call.isOpen = 0 ∧
      (main strtol pf argv).2.countP Call.isSleep = 0) ∧
    ((main strtol pf argv).1 = 0 →
      (∃ pre : List Call,
        (main strtol pf argv).2 =
          pre ++ (pf.iterator.map
            (fun d => Call.IOIteratorNext true :: loopBody d [])).flatten ++
            [Call.IOIteratorNext false, Call.mach_port_deallocate pf.machPort] ∧
        pre.countP Call.isNextDevice = 0 ∧ pre.countP Call.isOpen = 0 ∧
        pre.countP Call.isSleep = 0) ∧
      (main strtol pf argv).2.countP Call.isNextDevice = pf.iterator.length ∧
      (main strtol pf argv).2.countP Call.isOpen ≤ kExcAccMaxWait * pf.iterator.length ∧
      (main strtol pf argv).2.countP Call.isSleep ≤ kExcAccMaxWait * pf.iterator.length) ∧
    (∀ d : Device,
      (Call.IOIteratorNext true :: loopBody d []).countP Call.isNextDevice = 1 ∧
      (Call.IOIteratorNext true :: loopBody d []).countP Call.isOpen ≤ kExcAccMaxWait ∧
      (Call.IOIteratorNext true :: loopBody d []).countP Call.isSleep ≤ kExcAccMaxWait) := by
  have hpassO : ∀ d : Device,
      (Call.IOIteratorNext true :: loopBody d []).countP Call.isOpen ≤ kExcAccMaxWait := by
    intro d
    simpa [List.countP_cons, Call.isOpen] using countP_isOpen_loopBody_le d
  have hpassS : ∀ d : Device,
      (Call.IOIteratorNext true :: loopBody d []).countP Call.isSleep ≤ kExcAccMaxWait := by
    intro d
    simpa [List.countP_cons, Call.isSleep] using countP_isSleep_loopBody_le d
  have hpassN : ∀ d : Device,
      (Call.IOIteratorNext true :: loopBody d []).countP Call.isNextDevice = 1 := by
    intro d
    simp [List.countP_cons, Call.isNextDevice, countP_isNextDevice_loopBody d]
  refine ⟨fun hv hp => by rw [main_of_valid strtol pf argv hv hp], ?_, ?_, ?_,
    fun d => ⟨hpassN d, hpassO d, hpassS d⟩⟩
  · rcases main_cases strtol pf argv with ⟨pre, hm, _⟩ | ⟨pre, hm, _, _⟩
    · exact Or.inr (by rw [hm])
    · exact Or.inl (by rw [hm])
  · intro h1
    rcases main_cases strtol pf argv with ⟨pre, hm, hpre⟩ | ⟨pre, hm, _, _⟩
    · rw [hm]
      exact ⟨countP_eq_zero_of_isStartup _ pre isNextDevice_of_isStartup hpre,
        countP_eq_zero_of_isStartup _ pre isOpen_of_isStartup hpre,
        countP_eq_zero_of_isStartup _ pre isSleep_of_isStartup hpre⟩
    · rw [hm] at h1
      simp at h1
  · intro h0
    rcases main_cases strtol pf argv with ⟨pre, hm, _⟩ | ⟨pre, hm, hpre, _⟩
    · rw [hm] at h0
      simp at h0
    · have hN := countP_eq_zero_of_isStartup _ pre isNextDevice_of_isStartup hpre
      have hO := countP_eq_zero_of_isStartup _ pre isOpen_of_isStartup hpre
      have hS := countP_eq_zero_of_isStartup _ pre isSleep_of_isStartup hpre
      have htr : (main strtol pf argv).2 =
          pre ++ pf.iterator.flatMap (fun d => Call.IOIteratorNext true :: loopBody d []) ++
            [Call.IOIteratorNext false, Call.mach_port_deallocate pf.machPort] := by
        rw [hm, DeviceConnected_eq]
        simp
      refine ⟨⟨pre, ?_, hN, hO, hS⟩, ?_, ?_, ?_⟩
      · rw [htr]
        simp [List.flatMap]
      · rw [htr]
        simp only [List.countP_append, hN,
          countP_passes_eq Call.isNextDevice 1 _ hpassN pf.iterator]
        simp [Call.isNextDevice]
      · have hds := countP_passes_le Call.isOpen kExcAccMaxWait _ hpassO pf.iterator
        rw [htr]
        simp only [List.countP_append, hO]
        simp [Call.isOpen]
        exact hds
      · have hds := countP_passes_le Call.isSleep kExcAccMaxWait _ hpassS pf.iterator
        rw [htr]
        simp only [List.countP_append, hS]
        simp [Call.isSleep]
        exact hds

/-- C8 at a concrete input: the command line `devreset 1 1` with a busy device
and a free device; the run ends with code 0 and fetches two devices. -/
theorem run_visits_each_device_once_witness :
    validIds (strtolConst 1) ["devreset", "1", "1"] ∧
    (readyPlatform [busyDevice, freeDevice]).initOk ∧
    (main (strtolConst 1) (readyPlatform [busyDevice, freeDevice])
      ["devreset", "1", "1"]).1 = 0 ∧
    (main (strtolConst 1) (readyPlatform [busyDevice, freeDevice])
      ["devreset", "1", "1"]).2.countP Call.isNextDevice =
        (readyPlatform [busyDevice, freeDevice]).iterator.length :=
  have hv : validIds (strtolConst 1) ["devreset", "1", "1"] := by
    simp [validIds, strtolConst]
  have hp : (readyPlatform [busyDevice, freeDevice]).initOk := by
    simp [Platform.initOk, readyPlatform, kIOReturnSuccess]
  have h := run_visits_each_device_once (strtolConst 1)
    (readyPlatform [busyDevice, freeDevice]) ["devreset", "1", "1"]
  ⟨hv, hp, h.1 hv hp, (h.2.2.2.1 (h.1 hv hp)).2.1⟩

end DevReset
